import Mathlib

/-!
# F-14 Performance Toolkit — verification of the numeric core

Shallow embedding of the repository's numeric core, translated from the
Python sources:

* `src/src/engines/interpolator.py`   (`EngineInterpolator`)
* `src/src/engines/engine_f110.py`    (`F110EngineModel`)
* `src/src/models/f14_aero.py`        (`F14Aero`)
* `src/src/models/isa.py`             (`isa_atm`)
* `src/src/models/derate.py`          (`DerateCalculator.compute_auto_derate`)

Numbers are embedded as exact rationals (`ℚ`) where the Python code does
field arithmetic on floats, and as reals (`ℝ`) where the code uses
transcendental functions (`**`, `exp`, `sqrt`, `cos`).  Fallible Python code
(exceptions raised by pandas/numpy on empty selections, or explicit
`raise`) is embedded with `Except`.
-/

namespace F14

/-- Python `round` to an integer (round half to even), on exact rationals.
The Python code rounds binary floats; the embedding uses the exact decimal
semantics, which agrees except on values whose float representation falls on
the other side of a tie. -/
def pyRoundZ (x : ℚ) : ℤ :=
  let f := ⌊x⌋
  let r := x - (f : ℚ)
  if r < 1/2 then f
  else if (1 : ℚ)/2 < r then f + 1
  else if f % 2 = 0 then f else f + 1

/-- Python `round(x, ndigits)` on exact rationals. -/
def pyRound (ndigits : ℕ) (x : ℚ) : ℚ :=
  (pyRoundZ (x * 10 ^ ndigits) : ℚ) / 10 ^ ndigits

/-- Python `str.upper()` (the tags used by the toolkit are ASCII, on which
`Char.toUpper` agrees with Python). -/
def pyUpper (s : String) : String := String.mk (s.data.map Char.toUpper)

/-- `numpy` max over a list (`arr.max()`); `none` on an empty array, where
numpy raises `ValueError: zero-size array to reduction operation`. -/
def npMax? (xs : List ℚ) : Option ℚ :=
  xs.foldl (fun acc x => match acc with
    | none => some x
    | some m => some (max m x)) none

/-- `numpy` min over a list (`arr.min()`); `none` on an empty array. -/
def npMin? (xs : List ℚ) : Option ℚ :=
  xs.foldl (fun acc x => match acc with
    | none => some x
    | some m => some (min m x)) none

/-- `numpy.interp` over sample points `pts` sorted by first coordinate,
clamping at both ends (numpy's semantics for an increasing `xp`). -/
def npInterp (x : ℚ) : List (ℚ × ℚ) → ℚ
  | [] => 0
  | [(_, y0)] => y0
  | (x0, y0) :: (x1, y1) :: rest =>
      if x ≤ x0 then y0
      else if x ≤ x1 then y0 + (y1 - y0) * (x - x0) / (x1 - x0)
      else npInterp x ((x1, y1) :: rest)

/-- One row of the engine performance grid
(columns `ThrustType, Altitude_ft, Mach, RPM_pct, Thrust_lbf, FuelFlow_pph`). -/
structure EngRow where
  thrustType : String
  alt : ℚ
  mach : ℚ
  rpm : ℚ
  thrust : ℚ
  ff : ℚ
deriving DecidableEq

/-- Engine performance output (`Thrust_lbf`, `FuelFlow_pph`, `RPM_pct`). -/
structure Perf where
  thrust : ℚ
  ff : ℚ
  rpm : ℚ
deriving DecidableEq

/-- The distinct Python exception sites of the embedded code:
`noData` for the explicit `raise ValueError` on an empty category subset,
`outOfRange` for the `ValueError` numpy raises when a bracketing reduction
(`arr[arr <= x].max()` / `arr[arr >= x].min()`) runs on an empty selection,
`missingRow` for the `IndexError`/`ValueError` pandas raises when
`.iloc[0]` / `.values[0]` / `argmin` runs on an empty frame. -/
inductive TableError where
  | noData
  | outOfRange
  | missingRow
deriving DecidableEq

instance exceptDecEq {ε α : Type} [DecidableEq ε] [DecidableEq α] :
    DecidableEq (Except ε α)
  | .error e, .error f =>
    if h : e = f then .isTrue (by rw [h]) else .isFalse (by simp [h])
  | .error _, .ok _ => .isFalse (by simp)
  | .ok _, .error _ => .isFalse (by simp)
  | .ok a, .ok b =>
    if h : a = b then .isTrue (by rw [h]) else .isFalse (by simp [h])

namespace EngineInterpolator

/-- `EngineInterpolator._interpolate` from `src/src/engines/interpolator.py`. -/
def interpolate (ds : List EngRow) (tt : String) (alt mach : ℚ) :
    Except TableError Perf :=
  let subset := ds.filter (fun r => r.thrustType = tt)
  let alts := (subset.map (fun r => r.alt)).dedup
  let machs := (subset.map (fun r => r.mach)).dedup
  if alt ∈ alts ∧ mach ∈ machs then
    match subset.find? (fun r => decide (r.alt = alt ∧ r.mach = mach)) with
    | some row => .ok ⟨row.thrust, row.ff, row.rpm⟩
    | none => .error .missingRow
  else
    match npMax? (alts.filter (fun a => a ≤ alt)),
          npMin? (alts.filter (fun a => alt ≤ a)),
          npMax? (machs.filter (fun m => m ≤ mach)),
          npMin? (machs.filter (fun m => mach ≤ m)) with
    | some altLow, some altHigh, some machLow, some machHigh =>
      let get? := fun (a m : ℚ) (col : EngRow → ℚ) =>
        (subset.find? (fun r => decide (r.alt = a ∧ r.mach = m))).map col
      let interp2D := fun (col : EngRow → ℚ) =>
        match get? altLow machLow col, get? altLow machHigh col,
              get? altHigh machLow col, get? altHigh machHigh col with
        | some q11, some q12, some q21, some q22 =>
          let r1 := if machHigh = machLow then q11
            else q11 + (q12 - q11) * (mach - machLow) / (machHigh - machLow)
          let r2 := if machHigh = machLow then q21
            else q21 + (q22 - q21) * (mach - machLow) / (machHigh - machLow)
          let value := if altHigh = altLow then r1
            else r1 + (r2 - r1) * (alt - altLow) / (altHigh - altLow)
          some (pyRound 1 value)
        | _, _, _, _ => none
      match interp2D (fun r => r.thrust), interp2D (fun r => r.ff) with
      | some thrust, some ff =>
        .ok ⟨thrust, ff, if tt = "MIL" then 99 else if tt = "AB" then 103 else 71⟩
      | _, _ => .error .missingRow
    | _, _, _, _ => .error .outOfRange

/-- `EngineInterpolator.compute` from `src/src/engines/interpolator.py`:
DERATE is handled as a scaled MIL subcase (scale `derate / 99.0` applied to
thrust and fuel flow, RPM overwritten by the requested percent); any other
tag is uppercased and interpolated directly. -/
def compute (ds : List EngRow) (tt : String) (alt mach : ℚ)
    (derate : Option ℚ) : Except TableError Perf :=
  if pyUpper tt = "DERATE" then
    match interpolate ds "MIL" alt mach with
    | .error e => .error e
    | .ok r =>
      match derate with
      | some d =>
        if d ≠ 0 then .ok ⟨r.thrust * (d / 99), r.ff * (d / 99), d⟩ else .ok r
      | none => .ok r
  else
    interpolate ds (pyUpper tt) alt mach

end EngineInterpolator

namespace F110EngineModel

/-- `F110EngineModel._interpolate` from `src/src/engines/engine_f110.py`.
Returns the raw `(Thrust_lbf, RPM_pct, FuelFlow_pph)` triple, in the order the
Python function returns it. -/
def interpolate (ds : List EngRow) (tt : String) (alt mach : ℚ) :
    Except TableError (ℚ × ℚ × ℚ) :=
  let df := ds.filter (fun r => r.thrustType = tt)
  if df.isEmpty then .error .noData
  else
    let machs := (df.map (fun r => r.mach)).dedup
    let alts := (df.map (fun r => r.alt)).dedup
    match npMax? (machs.filter (fun m => m ≤ mach)),
          npMin? (machs.filter (fun m => mach ≤ m)),
          npMax? (alts.filter (fun a => a ≤ alt)),
          npMin? (alts.filter (fun a => alt ≤ a)) with
    | some machLow, some machHigh, some altLow, some altHigh =>
      if machLow = machHigh ∧ altLow = altHigh then
        match df.find? (fun r => decide (r.mach = machLow ∧ r.alt = altLow)) with
        | some row => .ok (row.thrust, row.rpm, row.ff)
        | none => .error .missingRow
      else if machLow = machHigh then
        let rows := df.filter (fun r => r.mach = machLow)
        .ok (npInterp alt (rows.map (fun r => (r.alt, r.thrust))),
             npInterp alt (rows.map (fun r => (r.alt, r.rpm))),
             npInterp alt (rows.map (fun r => (r.alt, r.ff))))
      else if altLow = altHigh then
        let rows := df.filter (fun r => r.alt = altLow)
        .ok (npInterp mach (rows.map (fun r => (r.mach, r.thrust))),
             npInterp mach (rows.map (fun r => (r.mach, r.rpm))),
             npInterp mach (rows.map (fun r => (r.mach, r.ff))))
      else
        match df.find? (fun r => decide (r.mach = machLow ∧ r.alt = altLow)),
              df.find? (fun r => decide (r.mach = machLow ∧ r.alt = altHigh)),
              df.find? (fun r => decide (r.mach = machHigh ∧ r.alt = altLow)),
              df.find? (fun r => decide (r.mach = machHigh ∧ r.alt = altHigh)) with
        | some q11, some q12, some q21, some q22 =>
          let bilinear := fun (v11 v12 v21 v22 : ℚ) =>
            (v11 * (altHigh - alt) * (machHigh - mach)
              + v21 * (altHigh - alt) * (mach - machLow)
              + v12 * (alt - altLow) * (machHigh - mach)
              + v22 * (alt - altLow) * (mach - machLow))
            / ((altHigh - altLow) * (machHigh - machLow))
          .ok (bilinear q11.thrust q12.thrust q21.thrust q22.thrust,
               bilinear q11.rpm q12.rpm q21.rpm q22.rpm,
               bilinear q11.ff q12.ff q21.ff q22.ff)
        | _, _, _, _ => .error .missingRow
    | _, _, _, _ => .error .outOfRange

/-- `F110EngineModel.compute` from `src/src/engines/engine_f110.py`.
DERATE (tag compared verbatim, not uppercased) is scaled MIL; thrust and fuel
flow are rounded to whole units and RPM to one decimal at this API surface. -/
def compute (ds : List EngRow) (tt : String) (alt mach : ℚ)
    (derate : Option ℚ) : Except TableError Perf :=
  if tt = "DERATE" then
    match interpolate ds "MIL" alt mach with
    | .error e => .error e
    | .ok (thrust, rpm, ff) =>
      match derate with
      | some d =>
        if d ≠ 0 then
          .ok ⟨pyRound 0 (thrust * (d / 99)), pyRound 0 (ff * (d / 99)), pyRound 1 d⟩
        else .ok ⟨pyRound 0 thrust, pyRound 0 ff, pyRound 1 rpm⟩
      | none => .ok ⟨pyRound 0 thrust, pyRound 0 ff, pyRound 1 rpm⟩
  else
    match interpolate ds tt alt mach with
    | .error e => .error e
    | .ok (thrust, rpm, ff) => .ok ⟨pyRound 0 thrust, pyRound 0 ff, pyRound 1 rpm⟩

end F110EngineModel

/-- One row of the aero polar table from `data/f14_aero.csv`
(columns lowercased by the loader: `config, sweep, mach, clmax, cd0, k,
stall_aoa_deg, l_d_max`). -/
structure AeroRow where
  config : String
  sweep : ℚ
  mach : ℚ
  clmax : ℚ
  cd0 : ℚ
  k : ℚ
  stall_aoa_deg : ℚ
  l_d_max : ℚ
deriving DecidableEq

/-- Result dictionary of `F14Aero.polar`. -/
structure PolarResult where
  clmax : ℚ
  cd0 : ℚ
  k : ℚ
  stall_aoa_deg : ℚ
  l_d_max : ℚ
  wing_area_eff : ℝ

/-- pandas `Series.unique()`: distinct values in order of first appearance. -/
def uniqueFirst (l : List ℚ) : List ℚ :=
  l.foldl (fun acc x => if x ∈ acc then acc else acc ++ [x]) []

/-- `arr[np.abs(arr - x).argmin()]`: the first element minimizing the absolute
distance to `x`; `none` on an empty array (numpy raises `ValueError`). -/
def argminAbs (xs : List ℚ) (x : ℚ) : Option ℚ :=
  xs.foldl (fun acc s => match acc with
    | none => some s
    | some b => if |s - x| < |b - x| then some s else acc) none

namespace F14Aero

/-- Reference wing area (ft², unswept) from `src/src/models/f14_aero.py`. -/
def wing_area_ref : ℚ := 565

/-- `F14Aero._nearest_config` from `src/src/models/f14_aero.py`: filter the
table to the uppercased configuration, silently falling back to `"CLEAN"`
when the requested configuration has no rows. -/
def nearestConfig (df : List AeroRow) (config : String) : List AeroRow :=
  let c := pyUpper config
  let c2 := if c ∈ df.map (fun r => r.config) then c else "CLEAN"
  df.filter (fun r => r.config = c2)

/-- The body of `F14Aero.polar` after the configuration filter: nearest-sweep
selection, Mach interpolation of each coefficient, and the sweep-scaled
effective wing area. -/
noncomputable def polarFromRows (sub : List AeroRow) (sweep mach : ℚ) :
    Except TableError PolarResult :=
  let sweeps := uniqueFirst (sub.map (fun r => r.sweep))
  match argminAbs sweeps sweep with
  | none => .error .missingRow
  | some nearestSweep =>
    let sub2 := sub.filter (fun r => r.sweep = nearestSweep)
    let along := fun (col : AeroRow → ℚ) =>
      npInterp mach (sub2.map (fun r => (r.mach, col r)))
    .ok ⟨along (fun r => r.clmax), along (fun r => r.cd0), along (fun r => r.k),
         along (fun r => r.stall_aoa_deg), along (fun r => r.l_d_max),
         (wing_area_ref : ℝ) * Real.cos ((nearestSweep : ℝ) * Real.pi / 180)⟩

/-- `F14Aero.polar` from `src/src/models/f14_aero.py` (with `auto=False`, the
default, so the caller-supplied sweep is used). -/
noncomputable def polar (df : List AeroRow) (config : String) (sweep mach : ℚ) :
    Except TableError PolarResult :=
  polarFromRows (nearestConfig df config) sweep mach

end F14Aero

namespace isa

/-- Troposphere temperature branch of `isa_atm` (`src/src/models/isa.py`):
`T = T0 - L*h` with `T0 = 288.15`, `L = 0.0065`. -/
noncomputable def tropoT (h : ℝ) : ℝ := 288.15 - 0.0065 * h

/-- Troposphere pressure branch of `isa_atm`:
`p = p0 * (T/T0) ** (g/(R*L))` with `p0 = 101325`, `g = 9.80665`,
`R = 287.05287`. -/
noncomputable def tropoP (h : ℝ) : ℝ :=
  101325 * (tropoT h / 288.15) ^ ((9.80665 : ℝ) / (287.05287 * 0.0065))

/-- Isothermal-layer temperature of `isa_atm`: `T11 = T0 - L*11000`. -/
noncomputable def isoT : ℝ := 288.15 - 0.0065 * 11000

/-- Isothermal pressure branch of `isa_atm`:
`p = p11 * exp(-g*(h-11000)/(R*T11))` anchored at the 11,000 m troposphere
pressure `p11`. -/
noncomputable def isoP (h : ℝ) : ℝ :=
  tropoP 11000 * Real.exp (-9.80665 * (h - 11000) / (287.05287 * isoT))

/-- `isa_atm` from `src/src/models/isa.py`: the tuple `(T, p, rho, a)` at an
altitude given in feet (`core/performance_core.py` repeats the same formulas
with `R = 287.058`). -/
noncomputable def isa_atm (alt_ft : ℝ) : ℝ × ℝ × ℝ × ℝ :=
  let h := alt_ft * 0.3048
  if h ≤ 11000 then
    (tropoT h, tropoP h, tropoP h / (287.05287 * tropoT h),
     Real.sqrt (1.4 * 287.05287 * tropoT h))
  else
    (isoT, isoP h, isoP h / (287.05287 * isoT),
     Real.sqrt (1.4 * 287.05287 * isoT))

end isa

/-- The guardrail configuration of `DerateCalculator`
(`src/src/models/derate.py`): default `{"min_rpm": 85, "max_rpm": 99,
"rpm_step": 1}`. -/
structure DerateConfig where
  min_rpm : ℤ
  max_rpm : ℤ
  rpm_step : ℤ
deriving DecidableEq

/-- Modelled from the spec: `DerateCalculator.compute_auto_derate` calls a
`TakeoffModel` variant that accepts takeoff conditions in its constructor and
an `rpm=` keyword in `compute_takeoff`, returning a dict with keys
`"Climb Gradient (ft/nm)"`, `"Fuel Flow (pph/engine)"`, etc.; that variant is
not present under `src/` (the `TakeoffModel` in
`src/src/models/takeoff_model.py` has a different interface, computing the
gradient from weight only and an OEI gradient as `0.55` times the all-engines
one).  Following spec §4.5 it is modelled as an abstract map from the RPM
percent to the quantities the mission card reads. -/
structure TakeoffResults where
  gradient : ℚ
  gradientOEI : ℚ
  fuelFlow : ℚ
deriving DecidableEq

/-- The mission-card dictionary built by `DerateCalculator._format_mission_card`
(restricted to the fields the card derives from the inputs; the V-speed and
trim entries are copied through from the takeoff results unchanged). -/
structure MissionCard where
  thrustType : String
  rpm : ℤ
  fuelFlow : ℚ
  gradient : ℚ
  warnings : String
  fuelSavings : ℚ
deriving DecidableEq

/-- Python `range(a, b, -s)` for a positive decrement `s`, as a list:
`a, a - s, a - 2s, …` while the value stays strictly above `b`. -/
def rangeDown (a b s : ℤ) : List ℤ :=
  if 0 < s ∧ b < a then
    (List.range ((a - b - 1).toNat / s.toNat + 1)).map (fun (i : ℕ) => a - s * (i : ℤ))
  else []

namespace DerateCalculator

/-- `DerateCalculator._format_mission_card` (`src/src/models/derate.py`):
thrust type is `"REDUCED"` for AUTO/MANUAL derates and the derate type
verbatim otherwise; fuel savings use the placeholder
`round((20000 - ff) * 0.5 * 2, 0)` since the results dict never carries a
`"Baseline MIL FF"` key. -/
def formatMissionCard (results : TakeoffResults) (rpm : ℤ)
    (derateType : String) (warnings : String) : MissionCard :=
  { thrustType :=
      if derateType = "AUTO" ∨ derateType = "MANUAL" then "REDUCED" else derateType
    rpm := rpm
    fuelFlow := results.fuelFlow
    gradient := results.gradient
    warnings := warnings
    fuelSavings := pyRound 0 ((20000 - results.fuelFlow) * (1/2) * 2) }

/-- `DerateCalculator.compute_auto_derate` (`src/src/models/derate.py`):
scan `range(max_rpm, min_rpm - 1, -rpm_step)` — i.e. downward from
`max_rpm` — and take the first RPM whose reported climb gradient is at least
300 ft/nm; if none qualifies, recompute at `max_rpm` and either escalate
unconditionally to afterburner (card RPM 100) when that gradient is below
200 ft/nm, or return a MIL card with an amber caution otherwise.  `m` stands
for the takeoff model evaluated on the fixed takeoff conditions. -/
def compute_auto_derate (cfg : DerateConfig) (m : ℤ → TakeoffResults) :
    MissionCard :=
  let cands := rangeDown cfg.max_rpm (cfg.min_rpm - 1) cfg.rpm_step
  match cands.find? (fun rpm => decide (300 ≤ (m rpm).gradient)) with
  | some rpm => formatMissionCard (m rpm) rpm "AUTO" ""
  | none =>
    let results := m cfg.max_rpm
    if results.gradient < 200 then
      formatMissionCard results 100 "AFTERBURNER"
        "❌ RED: Gradient <200 ft/nm — Escalating to Afterburner"
    else
      formatMissionCard results cfg.max_rpm "MIL"
        "Amber caution: Gradient <300 ft/nm, MIL thrust required"

end DerateCalculator

namespace TakeoffModel

/-- `TakeoffModel._validate_gradients` from `src/src/models/takeoff_model.py`
(lines 120–137), returning the `(status, thrust_used)` pair.  When the
all-engines gradient is below 300 ft/nm and the requested mode is not
afterburner, the thrust label is replaced by `"AFTERBURNER"` — the first
component of `_determine_thrust(weight, "AFTERBURNER")` — with no
policy-permission check (the escalated RPM and fuel flow are dropped by the
caller, which keeps only the returned pair, so the weight argument is not
consumed here).  An OEI gradient below 200 ft/nm only overwrites the status
string; the setting is kept. -/
def validate_gradients (climb_all climb_oei : ℚ)
    (thrust_used thrust_mode : String) : String × String :=
  let result :=
    if climb_all < 300 then
      if pyUpper thrust_mode ≠ "AFTERBURNER" then
        ("AUTO-ESCALATED TO AB", "AFTERBURNER")
      else if climb_all < 200 then
        ("WARNING: <200 ft/nm, not acceptable", thrust_used)
      else ("CAUTION: <300 ft/nm", thrust_used)
    else ("NORMAL", thrust_used)
  if climb_oei < 200 then ("OEI WARNING: <200 ft/nm", result.2) else result

/-- The fallback NATOPS takeoff dataset of `TakeoffModel._load_takeoff_data`
(`Weight_lbs` against the `ClimbGradient_ftnm` column). -/
def fallbackGradientTable : List (ℚ × ℚ) :=
  [(55000, 320), (60000, 310), (65000, 300), (70000, 280), (72000, 260)]

/-- `TakeoffModel._interpolate` (clamped `np.interp` of a NATOPS column over
takeoff weight; the explicit `min`/`max` guards in the source coincide with
`np.interp` clamping on the sorted table) composed with the OEI scaling
`climb_grad_oei = climb_grad_all * 0.55` of `compute_takeoff`, as a
takeoff-results oracle: this `TakeoffModel`'s gradient depends on weight only,
not on RPM. -/
def tableOracle : ℚ → ℤ → TakeoffResults := fun w _ =>
  ⟨npInterp w fallbackGradientTable,
   npInterp w fallbackGradientTable * (55/100), 9000⟩

end TakeoffModel

/-! Concrete tables, policies and takeoff-condition oracles used to instantiate
the theorems below (grids shaped like the `f14_engine_f110.csv` dataset rows). -/

/-- A MIL-only grid with two altitude breakpoints at Mach 0.3. -/
def twoAltGrid : List EngRow :=
  [⟨"MIL", 0, 3/10, 99, 16000, 10000⟩, ⟨"MIL", 10000, 3/10, 99, 12000, 8000⟩]

/-- A one-row MIL grid storing 16,000 lbf thrust at sea level, Mach 0.3. -/
def milOnlyGrid : List EngRow := [⟨"MIL", 0, 3/10, 99, 16000, 10000⟩]

/-- A MIL/AB grid with distinct rows for the two categories. -/
def milAbGrid : List EngRow :=
  [⟨"MIL", 0, 3/10, 99, 16000, 10000⟩, ⟨"AB", 0, 3/10, 103, 25000, 30000⟩]

/-- The first row of `milAbGrid` (the stored MIL breakpoint). -/
def milRow : EngRow := ⟨"MIL", 0, 3/10, 99, 16000, 10000⟩

/-- An aero table with rows only for the `CLEAN` configuration. -/
def cleanOnlyAero : List AeroRow :=
  [⟨"CLEAN", 20, 1/5, 12/5, 1/50, 1/20, 18, 12⟩,
   ⟨"CLEAN", 20, 4/5, 2, 1/40, 1/20, 17, 11⟩]

/-- The default derate guardrail configuration
(`{"min_rpm": 85, "max_rpm": 99, "rpm_step": 1}`). -/
def defaultDerateConfig : DerateConfig := ⟨85, 99, 1⟩

/-- Takeoff conditions whose reported climb gradient is 150 ft/nm at every
RPM (all-engines gradient far below both the 300 and 200 ft/nm thresholds). -/
def lowGradOracle : ℤ → TakeoffResults := fun _ => ⟨150, 165/2, 9000⟩

/-- Takeoff conditions whose reported all-engines climb gradient is
320 ft/nm at every RPM while the OEI gradient is 176 ft/nm
(`0.55 * 320`, the scaling `takeoff_model.py` applies). -/
def oeiLowOracle : ℤ → TakeoffResults := fun _ => ⟨320, 176, 9000⟩

/-!
## Theorems

Batteries marks the `Rat` field operations `irreducible`; the evaluations
below restore the default reducibility so that ground terms reduce. -/

attribute [local semireducible] Rat.mul Rat.inv Rat.add Rat.sub Rat.ofScientific

set_option maxRecDepth 8000

theorem char_ofNat_toNat (n : Nat) (h : n.isValidChar) :
    (Char.ofNat n).toNat = n := by
  simp [Char.ofNat, h, Char.ofNatAux, Char.toNat, UInt32.toNat]

theorem char_toUpper_idem (c : Char) : c.toUpper.toUpper = c.toUpper := by
  unfold Char.toUpper
  by_cases h : c.toNat ≥ 97 ∧ c.toNat ≤ 122
  · simp only [if_pos h]
    have hv : (c.toNat - 32).isValidChar := by
      unfold Nat.isValidChar; left; omega
    rw [char_ofNat_toNat _ hv]
    rw [if_neg (by omega)]
  · simp only [if_neg h]

theorem pyUpper_idem (s : String) : pyUpper (pyUpper s) = pyUpper s := by
  simp only [pyUpper, List.map_map]
  congr 1
  exact List.map_congr_left (fun c _ => char_toUpper_idem c)

/-- **C7**: for every engine grid, category tag and query point that coincides
with a stored breakpoint combination (witnessed by the first matching row of
the category subset), `EngineInterpolator._interpolate` takes the exact-match
path and returns the stored `Thrust_lbf`, `FuelFlow_pph` and `RPM_pct` values
verbatim — no interpolation arithmetic and no rounding is applied to them. -/
theorem C7_exact_breakpoint_returns_stored (ds : List EngRow) (tt : String)
    (alt mach : ℚ) (row : EngRow)
    (h : (ds.filter (fun r => r.thrustType = tt)).find?
      (fun r => decide (r.alt = alt ∧ r.mach = mach)) = some row) :
    EngineInterpolator.interpolate ds tt alt mach =
      .ok ⟨row.thrust, row.ff, row.rpm⟩ := by
  have hmem := List.mem_of_find?_eq_some h
  have hp := List.find?_some h
  simp only [decide_eq_true_eq] at hp
  have hcond :
      alt ∈ ((ds.filter (fun r => r.thrustType = tt)).map (fun r => r.alt)).dedup ∧
      mach ∈ ((ds.filter (fun r => r.thrustType = tt)).map (fun r => r.mach)).dedup := by
    constructor
    · rw [List.mem_dedup]
      exact hp.1 ▸ List.mem_map_of_mem (fun r => r.alt) hmem
    · rw [List.mem_dedup]
      exact hp.2 ▸ List.mem_map_of_mem (fun r => r.mach) hmem
  simp only [EngineInterpolator.interpolate, if_pos hcond, h]

theorem C7_witness :
    (milAbGrid.filter (fun r => r.thrustType = "MIL")).find?
        (fun r => decide (r.alt = 0 ∧ r.mach = 3/10)) = some milRow ∧
    EngineInterpolator.interpolate milAbGrid "MIL" 0 (3/10) =
      .ok ⟨milRow.thrust, milRow.ff, milRow.rpm⟩ :=
  ⟨by decide,
   C7_exact_breakpoint_returns_stored milAbGrid "MIL" 0 (3/10) milRow (by decide)⟩

/-- **C4**: for every engine grid, altitude, Mach and nonzero percent (Python
treats a zero or missing percent as falsy and skips the scaling), the public
DERATE result of `EngineInterpolator.compute` equals the public MIL result at
the same point with thrust and fuel flow each scaled by `percent / 99` and the
RPM replaced verbatim by the requested percent. -/
theorem C4_derate_scales_mil (ds : List EngRow) (alt mach d : ℚ) (hd : d ≠ 0) :
    EngineInterpolator.compute ds "DERATE" alt mach (some d) =
      (EngineInterpolator.compute ds "MIL" alt mach none).map
        (fun r => ⟨r.thrust * (d / 99), r.ff * (d / 99), d⟩) := by
  unfold EngineInterpolator.compute
  rw [if_pos (by decide : pyUpper "DERATE" = "DERATE"),
      if_neg (by decide : ¬ pyUpper "MIL" = "DERATE"),
      (by decide : pyUpper "MIL" = "MIL")]
  cases hI : EngineInterpolator.interpolate ds "MIL" alt mach with
  | error e => rfl
  | ok r => simp [Except.map, if_pos hd]

theorem C4_witness :
    (90 : ℚ) ≠ 0 ∧
    EngineInterpolator.compute milOnlyGrid "DERATE" 0 (3/10) (some 90) =
      (EngineInterpolator.compute milOnlyGrid "MIL" 0 (3/10) none).map
        (fun r => ⟨r.thrust * (90 / 99), r.ff * (90 / 99), 90⟩) :=
  ⟨by decide, C4_derate_scales_mil milOnlyGrid 0 (3/10) 90 (by decide)⟩

/-- **C10**: the string-keyed operations are case-insensitive in their tag
arguments: `EngineInterpolator.compute` depends on its thrust-type tag only
through `str.upper()`, and `F14Aero.polar` on its configuration only through
`str.upper()`, so computing with any tag equals computing with the uppercased
tag. -/
theorem C10_case_insensitive :
    (∀ (ds : List EngRow) (tt : String) (alt mach : ℚ) (derate : Option ℚ),
        EngineInterpolator.compute ds tt alt mach derate =
          EngineInterpolator.compute ds (pyUpper tt) alt mach derate) ∧
    (∀ (df : List AeroRow) (config : String) (sweep mach : ℚ),
        F14Aero.polar df config sweep mach =
          F14Aero.polar df (pyUpper config) sweep mach) := by
  constructor
  · intro ds tt alt mach derate
    unfold EngineInterpolator.compute
    rw [pyUpper_idem]
  · intro df config sweep mach
    unfold F14Aero.polar F14Aero.nearestConfig
    rw [pyUpper_idem]

/-- **C3** (evaluation at the failing input): on a MIL grid sampled at
altitudes 0 and 10,000 ft (Mach 0.3), a query at altitude 20,000 ft — outside
the sampled range — makes both `EngineInterpolator._interpolate` and
`F110EngineModel._interpolate` fail (the numpy reduction
`alts[alts >= altitude].min()` runs on an empty selection and raises
`ValueError`), instead of succeeding with the clamped-boundary value, which
the third conjunct shows would be `(12000, 8000, 99)`. -/
theorem C3_out_of_range_query_errors :
    EngineInterpolator.interpolate twoAltGrid "MIL" 20000 (3/10) =
      .error .outOfRange ∧
    F110EngineModel.interpolate twoAltGrid "MIL" 20000 (3/10) =
      .error .outOfRange ∧
    EngineInterpolator.interpolate twoAltGrid "MIL" 10000 (3/10) =
      .ok ⟨12000, 8000, 99⟩ :=
  ⟨by decide, by decide, by decide⟩

/-- **C5** (amended): a setting tag outside `{IDLE, MIL, AB, DERATE}` fails on
any grid whose categories are the documented `{IDLE, MIL, AB}` (the category
filter comes back empty and `F110EngineModel._interpolate` raises), but
`DERATE` *without* a percent does not fail: `F110EngineModel.compute` silently
returns the unscaled MIL performance. -/
theorem C5_amended_unknown_tag_fails_missing_percent_passes :
    (∀ (ds : List EngRow) (tag : String) (alt mach : ℚ) (d : Option ℚ),
        tag ∉ (["IDLE", "MIL", "AB", "DERATE"] : List String) →
        (∀ r ∈ ds, r.thrustType ∈ (["IDLE", "MIL", "AB"] : List String)) →
        F110EngineModel.compute ds tag alt mach d = .error .noData) ∧
    (∀ (ds : List EngRow) (alt mach : ℚ),
        F110EngineModel.compute ds "DERATE" alt mach none =
          F110EngineModel.compute ds "MIL" alt mach none) := by
  constructor
  · intro ds tag alt mach d htag hds
    have hmt : tag ≠ "DERATE" := by
      intro he
      exact htag (by rw [he]; decide)
    have hfilter : ds.filter (fun r => r.thrustType = tag) = [] := by
      rw [List.filter_eq_nil_iff]
      intro r hr
      simp only [decide_eq_true_eq]
      intro he
      have hmem := hds r hr
      rw [he] at hmem
      simp only [List.mem_cons, List.not_mem_nil, or_false] at hmem
      rcases hmem with h1 | h1 | h1 <;> exact htag (by rw [h1]; decide)
    unfold F110EngineModel.compute
    rw [if_neg hmt]
    unfold F110EngineModel.interpolate
    rw [hfilter]
    rfl
  · intro ds alt mach
    unfold F110EngineModel.compute
    rw [if_pos rfl, if_neg (by decide : ¬ ("MIL" : String) = "DERATE")]

theorem C5_amended_witness :
    (("FOO" : String) ∉ (["IDLE", "MIL", "AB", "DERATE"] : List String) ∧
      (∀ r ∈ milAbGrid, r.thrustType ∈ (["IDLE", "MIL", "AB"] : List String)) ∧
      F110EngineModel.compute milAbGrid "FOO" 0 (3/10) none = .error .noData) ∧
    F110EngineModel.compute milAbGrid "DERATE" 5000 (3/10) none =
      F110EngineModel.compute milAbGrid "MIL" 5000 (3/10) none :=
  ⟨⟨by decide, by decide,
    C5_amended_unknown_tag_fails_missing_percent_passes.1 milAbGrid "FOO" 0 (3/10)
      none (by decide) (by decide)⟩,
   C5_amended_unknown_tag_fails_missing_percent_passes.2 milAbGrid 5000 (3/10)⟩

/-- **C5** (counterexample to the claim as stated): `DERATE` with no percent
supplied does not fail with a `MissingParameterError` — on a grid storing
16,000 lbf MIL thrust at (0 ft, Mach 0.3) it returns the MIL performance
unchanged. -/
theorem C5_counterexample_missing_percent_returns_result :
    F110EngineModel.compute milOnlyGrid "DERATE" 0 (3/10) none =
      .ok ⟨16000, 10000, 99⟩ := by decide

/-- **C6** (amended): a power-setting category with no grid rows makes
`F110EngineModel._interpolate` fail (the `ValueError` raised on an empty
subset — the `NotFoundError` of the spec taxonomy), but an unknown aero
configuration does *not* fail: `F14Aero._nearest_config` silently replaces it
by `"CLEAN"`, returning the `CLEAN` rows. -/
theorem C6_amended_no_rows_fails_config_falls_back :
    (∀ (ds : List EngRow) (tt : String) (alt mach : ℚ),
        ds.filter (fun r => r.thrustType = tt) = [] →
        F110EngineModel.interpolate ds tt alt mach = .error .noData) ∧
    (∀ (df : List AeroRow) (config : String),
        pyUpper config ∉ df.map (fun r => r.config) →
        F14Aero.nearestConfig df config = df.filter (fun r => r.config = "CLEAN")) := by
  constructor
  · intro ds tt alt mach hfil
    unfold F110EngineModel.interpolate
    rw [hfil]
    rfl
  · intro df config hmem
    simp only [F14Aero.nearestConfig, if_neg hmem]

theorem C6_amended_witness :
    (milAbGrid.filter (fun r => r.thrustType = "IDLE") = [] ∧
      F110EngineModel.interpolate milAbGrid "IDLE" 0 0 = .error .noData) ∧
    (pyUpper "BOGUS" ∉ cleanOnlyAero.map (fun r => r.config) ∧
      F14Aero.nearestConfig cleanOnlyAero "BOGUS" =
        cleanOnlyAero.filter (fun r => r.config = "CLEAN")) :=
  ⟨⟨by decide,
    C6_amended_no_rows_fails_config_falls_back.1 milAbGrid "IDLE" 0 0 (by decide)⟩,
   ⟨by decide,
    C6_amended_no_rows_fails_config_falls_back.2 cleanOnlyAero "BOGUS" (by decide)⟩⟩

/-- **C6** (counterexample to the claim as stated): querying the polar of the
unknown configuration `"BOGUS"` against a table holding only `CLEAN` rows does
not fail with an `UnknownConfigurationError`: it succeeds and returns exactly
the `CLEAN` polar. -/
theorem C6_counterexample_unknown_config_not_error :
    F14Aero.polar cleanOnlyAero "BOGUS" 20 (1/2) =
      F14Aero.polar cleanOnlyAero "CLEAN" 20 (1/2) ∧
    (F14Aero.polar cleanOnlyAero "BOGUS" 20 (1/2)).isOk = true := by
  have h : F14Aero.nearestConfig cleanOnlyAero "BOGUS" =
      F14Aero.nearestConfig cleanOnlyAero "CLEAN" := by decide
  constructor
  · unfold F14Aero.polar
    rw [h]
  · unfold F14Aero.polar
    rw [h]
    rfl

/-- **C8**: `isa_atm 0` reproduces the sea-level ISA state — temperature
288.15 K and pressure 101325 Pa exactly, density within 1/1000 of
1.225 kg/m³, speed of sound within 1/100 of 340.3 m/s — and the atmosphere is
continuous at the 11,000 m tropopause: the troposphere branch and the
isothermal branch of `isa_atm` agree in temperature and pressure at exactly
11,000 m. -/
theorem C8_isa_sea_level_and_tropopause_continuity :
    (isa.isa_atm 0).1 = 288.15 ∧
    (isa.isa_atm 0).2.1 = 101325 ∧
    |(isa.isa_atm 0).2.2.1 - 1.225| < 1/1000 ∧
    |(isa.isa_atm 0).2.2.2 - 340.3| < 1/100 ∧
    isa.tropoT 11000 = isa.isoT ∧
    isa.tropoP 11000 = isa.isoP 11000 := by
  have hX : (0:ℝ) * 0.3048 ≤ 11000 := by norm_num
  have hT : isa.tropoT (0 * 0.3048) = 288.15 := by
    unfold isa.tropoT; norm_num
  have hP : isa.tropoP (0 * 0.3048) = 101325 := by
    unfold isa.tropoP
    rw [hT, div_self (by norm_num : (288.15:ℝ) ≠ 0), Real.one_rpow]
    norm_num
  have hatm : isa.isa_atm 0 =
      (isa.tropoT (0 * 0.3048), isa.tropoP (0 * 0.3048),
       isa.tropoP (0 * 0.3048) / (287.05287 * isa.tropoT (0 * 0.3048)),
       Real.sqrt (1.4 * 287.05287 * isa.tropoT (0 * 0.3048))) := by
    simp only [isa.isa_atm]
    rw [if_pos hX]
  refine ⟨by rw [hatm]; exact hT, by rw [hatm]; exact hP, ?_, ?_, ?_, ?_⟩
  · rw [hatm]
    show |isa.tropoP (0 * 0.3048) / (287.05287 * isa.tropoT (0 * 0.3048)) - 1.225| < 1/1000
    rw [hP, hT]
    rw [abs_sub_lt_iff]
    constructor <;> [skip; skip] <;> norm_num
  · rw [hatm]
    show |Real.sqrt (1.4 * 287.05287 * isa.tropoT (0 * 0.3048)) - 340.3| < 1/100
    rw [hT]
    have h1 : Real.sqrt (1.4 * 287.05287 * 288.15) < 340.3 :=
      (Real.sqrt_lt' (by norm_num)).mpr (by norm_num)
    have h2 : (340.29 : ℝ) < Real.sqrt (1.4 * 287.05287 * 288.15) :=
      (Real.lt_sqrt (by norm_num)).mpr (by norm_num)
    rw [abs_sub_lt_iff]
    constructor <;> linarith
  · unfold isa.tropoT isa.isoT
    norm_num
  · unfold isa.isoP
    norm_num [Real.exp_zero]

theorem rangeDown_mem {a b s x : ℤ} (hx : x ∈ rangeDown a b s) :
    b < x ∧ x ≤ a := by
  unfold rangeDown at hx
  split at hx
  case isTrue h =>
    obtain ⟨i, hi, rfl⟩ := List.mem_map.mp hx
    rw [List.mem_range] at hi
    have h1 : i ≤ (a - b - 1).toNat / s.toNat := Nat.lt_succ_iff.mp hi
    have h2 : s.toNat * i ≤ (a - b - 1).toNat := by
      calc s.toNat * i ≤ s.toNat * ((a - b - 1).toNat / s.toNat) :=
            Nat.mul_le_mul_left s.toNat h1
        _ = (a - b - 1).toNat / s.toNat * s.toNat := Nat.mul_comm _ _
        _ ≤ (a - b - 1).toNat := Nat.div_mul_le_self _ _
    have h3 : s * (i : ℤ) ≤ a - b - 1 := by
      have h2z := Int.ofNat_le.mpr h2
      push_cast at h2z
      rwa [Int.toNat_of_nonneg (le_of_lt h.1),
           Int.toNat_of_nonneg (by omega : (0:ℤ) ≤ a - b - 1)] at h2z
    have h4 : 0 ≤ s * (i : ℤ) :=
      mul_nonneg (le_of_lt h.1) (Int.natCast_nonneg i)
    constructor <;> linarith
  case isFalse h => cases hx

theorem rangeDown_cons (a b s : ℤ) (hs : 0 < s) (hba : b < a) :
    rangeDown a b s = a :: (List.range ((a - b - 1).toNat / s.toNat)).map
      (fun (i : ℕ) => a - s * ((i : ℤ) + 1)) := by
  unfold rangeDown
  rw [if_pos ⟨hs, hba⟩, List.range_succ_eq_map, List.map_cons, List.map_map]
  refine congrArg₂ List.cons (by norm_num) (List.map_congr_left fun i _ => ?_)
  simp only [Function.comp_apply]
  push_cast
  ring

/-- **C1** (amended): the mission card of `compute_auto_derate` never carries
an RPM below the policy floor `min_rpm` (the AUTO search stays inside
`[min_rpm, max_rpm]`, the MIL card uses `max_rpm` and the afterburner card
uses 100), but escalation to afterburner is *unconditional*: the policy has no
afterburner-permission flag and no UNSAFE status exists — the card's thrust
type is `"AFTERBURNER"` exactly when no scanned setting reaches 300 ft/nm and
the `max_rpm` gradient is below 200 ft/nm. -/
theorem C1_amended_floor_and_unconditional_ab (cfg : DerateConfig)
    (m : ℤ → TakeoffResults) (hs : 0 < cfg.rpm_step)
    (hle : cfg.min_rpm ≤ cfg.max_rpm) (h100 : cfg.min_rpm ≤ 100) :
    cfg.min_rpm ≤ (DerateCalculator.compute_auto_derate cfg m).rpm ∧
    ((DerateCalculator.compute_auto_derate cfg m).thrustType = "AFTERBURNER" ↔
      (∀ r ∈ rangeDown cfg.max_rpm (cfg.min_rpm - 1) cfg.rpm_step,
          (m r).gradient < 300) ∧
      (m cfg.max_rpm).gradient < 200) := by
  cases hf : (rangeDown cfg.max_rpm (cfg.min_rpm - 1) cfg.rpm_step).find?
      (fun rpm => decide (300 ≤ (m rpm).gradient)) with
  | some rpm =>
    have hmem := List.mem_of_find?_eq_some hf
    have hrange := rangeDown_mem hmem
    have hp := List.find?_some hf
    simp only [decide_eq_true_eq] at hp
    have hcard : DerateCalculator.compute_auto_derate cfg m =
        DerateCalculator.formatMissionCard (m rpm) rpm "AUTO" "" := by
      simp only [DerateCalculator.compute_auto_derate, hf]
    rw [hcard]
    refine ⟨by simp only [DerateCalculator.formatMissionCard]; omega, ?_, ?_⟩
    · intro habs
      simp [DerateCalculator.formatMissionCard] at habs
    · rintro ⟨hall, -⟩
      exact absurd hp (not_le.mpr (hall rpm hmem))
  | none =>
    have hall : ∀ r ∈ rangeDown cfg.max_rpm (cfg.min_rpm - 1) cfg.rpm_step,
        (m r).gradient < 300 := by
      intro r hr
      have hnr := List.find?_eq_none.mp hf r hr
      simpa [not_le] using hnr
    by_cases hg : (m cfg.max_rpm).gradient < 200
    · have hcard : DerateCalculator.compute_auto_derate cfg m =
          DerateCalculator.formatMissionCard (m cfg.max_rpm) 100 "AFTERBURNER"
            "❌ RED: Gradient <200 ft/nm — Escalating to Afterburner" := by
        simp only [DerateCalculator.compute_auto_derate, hf, if_pos hg]
      rw [hcard]
      refine ⟨by simp only [DerateCalculator.formatMissionCard]; omega, ?_, ?_⟩
      · intro _
        exact ⟨hall, hg⟩
      · intro _
        simp [DerateCalculator.formatMissionCard]
    · have hcard : DerateCalculator.compute_auto_derate cfg m =
          DerateCalculator.formatMissionCard (m cfg.max_rpm) cfg.max_rpm "MIL"
            "Amber caution: Gradient <300 ft/nm, MIL thrust required" := by
        simp only [DerateCalculator.compute_auto_derate, hf, if_neg hg]
      rw [hcard]
      refine ⟨by simp only [DerateCalculator.formatMissionCard]; omega, ?_, ?_⟩
      · intro habs
        simp [DerateCalculator.formatMissionCard] at habs
      · rintro ⟨-, hlt⟩
        exact absurd hlt hg

theorem C1_amended_witness :
    defaultDerateConfig.min_rpm ≤
      (DerateCalculator.compute_auto_derate defaultDerateConfig lowGradOracle).rpm ∧
    ((DerateCalculator.compute_auto_derate defaultDerateConfig
        lowGradOracle).thrustType = "AFTERBURNER" ↔
      (∀ r ∈ rangeDown defaultDerateConfig.max_rpm
          (defaultDerateConfig.min_rpm - 1) defaultDerateConfig.rpm_step,
          (lowGradOracle r).gradient < 300) ∧
      (lowGradOracle defaultDerateConfig.max_rpm).gradient < 200) :=
  C1_amended_floor_and_unconditional_ab defaultDerateConfig lowGradOracle
    (by decide) (by decide) (by decide)

/-- **C1** (counterexample to the claim as stated): with the default policy —
which has no afterburner-permission field at all — and takeoff conditions
whose gradient is 150 ft/nm everywhere, `compute_auto_derate` returns an
`"AFTERBURNER"` card at RPM 100 with the RED escalation warning; no UNSAFE
status is ever produced.  The other cited site, `_validate_gradients`, behaves
the same way: at the same gradients it swaps the thrust label to
`"AFTERBURNER"` with no permission consulted (the status ends as the OEI
warning string, since the OEI overwrite runs last). -/
theorem C1_counterexample_ab_without_permission :
    (DerateCalculator.compute_auto_derate defaultDerateConfig
        lowGradOracle).thrustType = "AFTERBURNER" ∧
    (DerateCalculator.compute_auto_derate defaultDerateConfig
        lowGradOracle).rpm = 100 ∧
    (DerateCalculator.compute_auto_derate defaultDerateConfig
        lowGradOracle).warnings =
      "❌ RED: Gradient <200 ft/nm — Escalating to Afterburner" ∧
    TakeoffModel.validate_gradients 150 (165/2) "MILITARY" "MILITARY" =
      ("OEI WARNING: <200 ft/nm", "AFTERBURNER") := by
  refine ⟨by decide, by decide, by decide, by decide⟩

/-- Characterization of the selected RPM when the reported gradient is
maximal at `max_rpm` over the scanned candidates (the physically expected
shape: gradient nondecreasing in power). -/
theorem compute_auto_derate_rpm_eq (cfg : DerateConfig) (m : ℤ → TakeoffResults)
    (hs : 0 < cfg.rpm_step) (hle : cfg.min_rpm ≤ cfg.max_rpm)
    (hmono : ∀ r ∈ rangeDown cfg.max_rpm (cfg.min_rpm - 1) cfg.rpm_step,
      (m r).gradient ≤ (m cfg.max_rpm).gradient) :
    (DerateCalculator.compute_auto_derate cfg m).rpm =
      if (m cfg.max_rpm).gradient < 200 then 100 else cfg.max_rpm := by
  have hcons := rangeDown_cons cfg.max_rpm (cfg.min_rpm - 1) cfg.rpm_step hs
    (by omega)
  by_cases h3 : 300 ≤ (m cfg.max_rpm).gradient
  · have hfind : (rangeDown cfg.max_rpm (cfg.min_rpm - 1) cfg.rpm_step).find?
        (fun rpm => decide (300 ≤ (m rpm).gradient)) = some cfg.max_rpm := by
      rw [hcons]
      exact List.find?_cons_of_pos _ (by simpa using h3)
    simp only [DerateCalculator.compute_auto_derate, hfind]
    rw [if_neg (by linarith)]
    simp only [DerateCalculator.formatMissionCard]
  · have hfind : (rangeDown cfg.max_rpm (cfg.min_rpm - 1) cfg.rpm_step).find?
        (fun rpm => decide (300 ≤ (m rpm).gradient)) = none := by
      rw [List.find?_eq_none]
      intro x hx
      simp only [decide_eq_true_eq, not_le]
      have hm := hmono x hx
      linarith [not_le.mp h3]
    simp only [DerateCalculator.compute_auto_derate, hfind]
    by_cases h2 : (m cfg.max_rpm).gradient < 200
    · rw [if_pos h2, if_pos h2]
      simp only [DerateCalculator.formatMissionCard]
    · rw [if_neg h2, if_neg h2]
      simp only [DerateCalculator.formatMissionCard]

/-- **C9**: for a fixed policy and a weight-indexed family of takeoff
conditions whose gradient is maximal at `max_rpm` among the scanned
candidates (gradient nondecreasing in power) and nonincreasing in weight at
`max_rpm` (heavier never climbs better), the RPM on the card selected by
`compute_auto_derate` is nondecreasing in weight: a heavier aircraft never
receives a lower power setting. -/
theorem C9_weight_monotonic (cfg : DerateConfig) (g : ℚ → ℤ → TakeoffResults)
    (w1 w2 : ℚ) (hs : 0 < cfg.rpm_step) (hle : cfg.min_rpm ≤ cfg.max_rpm)
    (hmax : cfg.max_rpm ≤ 100) (hw : w1 ≤ w2)
    (hmono : ∀ (w : ℚ), ∀ r ∈ rangeDown cfg.max_rpm (cfg.min_rpm - 1)
      cfg.rpm_step, (g w r).gradient ≤ (g w cfg.max_rpm).gradient)
    (hanti : (g w2 cfg.max_rpm).gradient ≤ (g w1 cfg.max_rpm).gradient) :
    (DerateCalculator.compute_auto_derate cfg (g w1)).rpm ≤
      (DerateCalculator.compute_auto_derate cfg (g w2)).rpm := by
  rw [compute_auto_derate_rpm_eq cfg (g w1) hs hle (hmono w1),
      compute_auto_derate_rpm_eq cfg (g w2) hs hle (hmono w2)]
  by_cases h1 : (g w1 cfg.max_rpm).gradient < 200
  · rw [if_pos h1, if_pos (by linarith)]
  · rw [if_neg h1]
    by_cases h2 : (g w2 cfg.max_rpm).gradient < 200
    · rw [if_pos h2]
      exact hmax
    · rw [if_neg h2]

theorem C9_witness :
    (DerateCalculator.compute_auto_derate defaultDerateConfig
        (TakeoffModel.tableOracle 60000)).rpm ≤
      (DerateCalculator.compute_auto_derate defaultDerateConfig
        (TakeoffModel.tableOracle 70000)).rpm :=
  C9_weight_monotonic defaultDerateConfig TakeoffModel.tableOracle 60000 70000
    (by decide) (by decide) (by decide) (by norm_num)
    (fun w r _ => le_refl _) (by decide)

/-- **C2** (evaluation at the failing input): with the default policy and
takeoff conditions whose all-engines gradient is 320 ft/nm at *every* RPM
(and whose OEI gradient is 176 ft/nm, below the 200 ft/nm minimum),
`compute_auto_derate` returns RPM 99 — the *highest* passing setting, not the
lowest, although 85 is also a scanned candidate that clears 300 ft/nm — and it
accepts the setting even though the OEI gradient is below 200 ft/nm, which is
never consulted.  The cited `_validate_gradients` likewise only rewrites the
status string on an OEI gradient below 200 ft/nm and keeps the setting. -/
theorem C2_highest_not_lowest_and_oei_ignored :
    (DerateCalculator.compute_auto_derate defaultDerateConfig oeiLowOracle).rpm
        = 99 ∧
    (DerateCalculator.compute_auto_derate defaultDerateConfig
        oeiLowOracle).thrustType = "REDUCED" ∧
    (85 : ℤ) ∈ rangeDown defaultDerateConfig.max_rpm
        (defaultDerateConfig.min_rpm - 1) defaultDerateConfig.rpm_step ∧
    300 ≤ (oeiLowOracle 85).gradient ∧
    (oeiLowOracle 99).gradientOEI < 200 ∧
    TakeoffModel.validate_gradients 320 176 "MILITARY" "MILITARY" =
      ("OEI WARNING: <200 ft/nm", "MILITARY") := by
  refine ⟨by decide, by decide, by decide, by decide, by decide, by decide⟩

end F14
